import Mathlib

/-!
Shallow embedding of the manifest-reconciliation utilities of
`udacity-DataWarehouse` (`aws_utils.py`, `populate_date_time.py`) and
verification of the specification's claims about them.

The object store and the warehouse are external collaborators: a run of the
paginated listing is modelled by the sequence of page responses the store
returns, and the warehouse load-history table by the list of filename rows
the `SELECT` yields.
-/

namespace DataWarehouse

/-- One response of the store's `list_objects_v2` call inside the listing
loop of `s3_list_bucket_files`: either a page of keys (`Contents`), or an
exception raised by the store access. -/
inductive PageResult where
  | page (keys : List String)
  | err
deriving DecidableEq, Repr

/-- The `while True` loop of `s3_list_bucket_files` (aws_utils.py lines
66-84): keys of each page are appended to `files` in order; the loop follows
the continuation token until a page is not truncated; an exception aborts the
loop and is caught by the surrounding `try`, keeping the keys accumulated so
far. -/
def collectKeys : List PageResult → List String
  | [] => []
  | PageResult.page ks :: rest => ks ++ collectKeys rest
  | PageResult.err :: _ => []

/-- The final line of `s3_list_bucket_files` (aws_utils.py line 89):
`return files[:limit] if limit else files`.  A `limit` of `None` or `0` is
falsy in Python, so the list is returned whole; a nonzero limit slices the
aggregated list to its first `limit` elements. -/
def applyLimit (limit : Option Nat) (files : List String) : List String :=
  match limit with
  | none => files
  | some n => if n = 0 then files else files.take n

/-- `s3_list_bucket_files` (aws_utils.py lines 36-89), as a function of the
page responses the store produces for the requested bucket and key pattern
and of the optional `limit` argument. -/
def s3_list_bucket_files (pages : List PageResult) (limit : Option Nat) :
    List String :=
  applyLimit limit (collectKeys pages)

/-- `compare_files` (aws_utils.py lines 156-173):
`list(set(s3_files) - set(redshift_committed_files))`.  The Python set
difference contains each string of `s3_files` that is not committed, exactly
once; the iteration order of a CPython set is not meaningful, so the
difference is embedded as the deduplicated filtered list. -/
def compare_files (redshift_committed_files s3_files : List String) :
    List String :=
  (s3_files.filter (fun f => decide (f ∉ redshift_committed_files))).dedup

/-- Whether `pat` occurs contiguously inside `s`, checking every suffix:
the semantics of the SQL predicate `filename LIKE '%pat%'` issued by
`redshift_get_committed_files` for a pattern without SQL wildcards (the
deployed patterns are `'song-data'` and `'log-data'`). -/
def charsHasSub (pat : List Char) : List Char → Bool
  | [] => pat.isEmpty
  | c :: rest => pat.isPrefixOf (c :: rest) || charsHasSub pat rest

/-- `filename LIKE '%pat%'` on strings. -/
def sqlLikeContains (filename pat : String) : Bool :=
  charsHasSub pat.data filename.data

/-- Python `str.strip()`: drops whitespace characters from both ends of the
string. -/
def py_strip (s : String) : String :=
  String.mk
    (((s.data.dropWhile Char.isWhitespace).reverse.dropWhile
        Char.isWhitespace).reverse)

/-- `redshift_get_committed_files` (aws_utils.py lines 92-153) as a function
of the `filename` rows stored in the warehouse's `stl_load_commits` table
and of the `prefix` argument `pat`: the query keeps the rows whose filename
contains `pat` as a substring (`LIKE '%pat%'`), `SELECT DISTINCT` drops
duplicate rows, and the Python comprehension strips surrounding whitespace
from each fetched row (`row[0].strip()`). -/
def redshift_get_committed_files (rows : List String) (pat : String) :
    List String :=
  ((rows.filter (fun f => sqlLikeContains f pat)).dedup).map py_strip

theorem collectKeys_map_page (pages : List (List String)) :
    collectKeys (pages.map PageResult.page) = pages.flatten := by
  induction pages with
  | nil => rfl
  | cons ks rest ih => simp [collectKeys, ih]

theorem collectKeys_err (good : List (List String)) (rest : List PageResult) :
    collectKeys (good.map PageResult.page ++ PageResult.err :: rest) =
      good.flatten := by
  induction good with
  | nil => rfl
  | cons ks gs ih => simp [collectKeys, ih]

theorem mem_compare_files {C S : List String} {x : String} :
    x ∈ compare_files C S ↔ x ∈ S ∧ x ∉ C := by
  simp [compare_files, List.mem_dedup, List.mem_filter]

theorem charsHasSub_iff {pat s : List Char} :
    charsHasSub pat s = true ↔ pat <:+: s := by
  induction s with
  | nil =>
      simp [charsHasSub, List.isEmpty_iff, List.infix_nil]
  | cons c rest ih =>
      simp [charsHasSub, ih, List.infix_cons_iff, Bool.or_eq_true,
        List.isPrefixOf_iff_prefix]

theorem mem_redshift_get_committed_files {rows : List String} {pat x : String} :
    x ∈ redshift_get_committed_files rows pat ↔
      ∃ f, f ∈ rows ∧ pat.data <:+: f.data ∧ x = py_strip f := by
  simp only [redshift_get_committed_files, List.mem_map, List.mem_dedup,
    List.mem_filter, sqlLikeContains, charsHasSub_iff]
  constructor
  · rintro ⟨f, ⟨hf, hsub⟩, rfl⟩
    exact ⟨f, hf, hsub, rfl⟩
  · rintro ⟨f, hf, hsub, rfl⟩
    exact ⟨f, ⟨hf, hsub⟩, rfl⟩

mutual

/-- JSON values as the Python `json` module builds them for the manifest
documents of this repository: strings, booleans, arrays and objects (the
sequence types are their own inductives so that all recursion over JSON
stays structural). -/
inductive Json where
  | str (s : String)
  | bool (b : Bool)
  | arr (xs : JsonList)
  | obj (fields : JsonFields)

/-- The items of a JSON array. -/
inductive JsonList where
  | nil
  | cons (x : Json) (xs : JsonList)

/-- The key-value members of a JSON object. -/
inductive JsonFields where
  | nil
  | cons (k : String) (v : Json) (fs : JsonFields)

end

/-- Lower-case hexadecimal digit. -/
def hexDigit (n : Nat) : Char :=
  if n < 10 then Char.ofNat (48 + n) else Char.ofNat (87 + n)

/-- Four lower-case hexadecimal digits, as in a JSON `\uXXXX` escape. -/
def hex4 (n : Nat) : String :=
  String.mk [hexDigit (n / 4096 % 16), hexDigit (n / 256 % 16),
    hexDigit (n / 16 % 16), hexDigit (n % 16)]

/-- Escaping of one character by `json.dumps` with its default
`ensure_ascii=True`: quotation mark and backslash are backslash-escaped, the
common control characters use their short escapes, and every other character
outside the printable ASCII range `0x20`-`0x7e` becomes a `\uXXXX` escape (a
surrogate pair for code points beyond the basic multilingual plane). -/
def escapeChar (c : Char) : String :=
  if c = '"' then "\\\""
  else if c = '\\' then "\\\\"
  else if c = '\n' then "\\n"
  else if c = '\t' then "\\t"
  else if c = '\r' then "\\r"
  else if c = '\x08' then "\\b"
  else if c = '\x0c' then "\\f"
  else if c.toNat < 32 ∨ c.toNat > 126 then
    if c.toNat < 65536 then "\\u" ++ hex4 c.toNat
    else
      "\\u" ++ hex4 (55296 + (c.toNat - 65536) / 1024) ++
        "\\u" ++ hex4 (56320 + (c.toNat - 65536) % 1024)
  else String.singleton c

/-- `json.dumps` escaping of a whole string (without the quotes). -/
def escapeString (s : String) : String :=
  String.join (s.data.map escapeChar)

/-- A run of `n` spaces. -/
def spaces (n : Nat) : String :=
  String.mk (List.replicate n ' ')

mutual

/-- `json.dumps(value, indent=2)` at current indentation `ind`: containers
put every item on its own line indented by `ind + 2` spaces, items are
separated by a comma-newline, keys by a colon-space, and empty containers
print inline. -/
def dumpJson (ind : Nat) : Json → String
  | Json.str s => "\"" ++ escapeString s ++ "\""
  | Json.bool b => if b then "true" else "false"
  | Json.arr JsonList.nil => "[]"
  | Json.arr (JsonList.cons x xs) =>
      "[\n" ++ dumpArrItems (ind + 2) (JsonList.cons x xs) ++ "\n" ++
        spaces ind ++ "]"
  | Json.obj JsonFields.nil => "\x7b\x7d"
  | Json.obj (JsonFields.cons k v fs) =>
      "\x7b\n" ++ dumpObjItems (ind + 2) (JsonFields.cons k v fs) ++ "\n" ++
        spaces ind ++ "\x7d"

/-- Comma-newline separated array items, each indented by `ind`. -/
def dumpArrItems (ind : Nat) : JsonList → String
  | JsonList.nil => ""
  | JsonList.cons x JsonList.nil => spaces ind ++ dumpJson ind x
  | JsonList.cons x (JsonList.cons y ys) =>
      spaces ind ++ dumpJson ind x ++ ",\n" ++
        dumpArrItems ind (JsonList.cons y ys)

/-- Comma-newline separated object members, each indented by `ind`. -/
def dumpObjItems (ind : Nat) : JsonFields → String
  | JsonFields.nil => ""
  | JsonFields.cons k v JsonFields.nil =>
      spaces ind ++ "\"" ++ escapeString k ++ "\": " ++ dumpJson ind v
  | JsonFields.cons k v (JsonFields.cons k2 v2 fs) =>
      spaces ind ++ "\"" ++ escapeString k ++ "\": " ++ dumpJson ind v ++
        ",\n" ++ dumpObjItems ind (JsonFields.cons k2 v2 fs)

end

/-- One manifest entry of `s3_create_manifest` (aws_utils.py lines 214-217):
`{"url": f"{file}", "mandatory": True}`. -/
def s3_manifest_entry (file : String) : Json :=
  Json.obj (JsonFields.cons "url" (Json.str file)
    (JsonFields.cons "mandatory" (Json.bool true) JsonFields.nil))

/-- The entry array of the manifest: one entry per file of `file_list`, in
input order. -/
def s3_manifest_entries : List String → JsonList
  | [] => JsonList.nil
  | file :: rest => JsonList.cons (s3_manifest_entry file) (s3_manifest_entries rest)

/-- The `manifest_content` dictionary of `s3_create_manifest` (aws_utils.py
lines 214-217): `{"entries": [... one entry per file of file_list ...]}`. -/
def s3_create_manifest_content (file_list : List String) : Json :=
  Json.obj (JsonFields.cons "entries" (Json.arr (s3_manifest_entries file_list))
    JsonFields.nil)

/-- The `manifest_json` body uploaded by `s3_create_manifest` (aws_utils.py
line 218): `json.dumps(manifest_content, indent=2)`. -/
def s3_create_manifest_body (file_list : List String) : String :=
  dumpJson 0 (s3_create_manifest_content file_list)

/-- Reads one manifest entry back out of a JSON value. -/
def entryOfJson : Json → Option (String × Bool)
  | Json.obj (JsonFields.cons "url" (Json.str u)
      (JsonFields.cons "mandatory" (Json.bool m) JsonFields.nil)) => some (u, m)
  | _ => none

/-- Reads each item of a JSON array as a manifest entry. -/
def entriesOfJsonList : JsonList → Option (List (String × Bool))
  | JsonList.nil => some []
  | JsonList.cons x xs => do
      let e ← entryOfJson x
      let es ← entriesOfJsonList xs
      some (e :: es)

/-- Reads the entry list back out of a manifest JSON document. -/
def entriesOfJson : Json → Option (List (String × Bool))
  | Json.obj (JsonFields.cons "entries" (Json.arr xs) JsonFields.nil) =>
      entriesOfJsonList xs
  | _ => none

/-- `aws_generate_manifest` (aws_utils.py lines 229-305) as a function of the
page responses of the store listing, the `limit` argument, the data bucket
name, the rows of the warehouse load-history table, and the file-prefix
pattern: lists the bucket keys, qualifies each as `s3://<data_bucket>/<key>`,
fetches the committed filenames, diffs them, and builds the manifest content
that `s3_create_manifest` uploads. -/
def aws_generate_manifest (pages : List PageResult) (limit : Option Nat)
    (data_bucket : String) (rows : List String) (pat : String) : Json :=
  let s3_files := s3_list_bucket_files pages limit
  let s3_files_bucketed :=
    s3_files.map (fun file => "s3://" ++ data_bucket ++ "/" ++ file)
  let redshift_committed_files := redshift_get_committed_files rows pat
  let new_files := compare_files redshift_committed_files s3_files_bucketed
  s3_create_manifest_content new_files

/-- JSON whitespace, skipped between tokens. -/
def skipWs : List Char → List Char
  | c :: rest =>
      if c = ' ' ∨ c = '\n' ∨ c = '\t' ∨ c = '\r' then skipWs rest
      else c :: rest
  | [] => []

/-- Value of one hexadecimal digit. -/
def hexVal (c : Char) : Option Nat :=
  if '0' ≤ c ∧ c ≤ '9' then some (c.toNat - 48)
  else if 'a' ≤ c ∧ c ≤ 'f' then some (c.toNat - 87)
  else if 'A' ≤ c ∧ c ≤ 'F' then some (c.toNat - 55)
  else none

/-- The character denoted by a short JSON escape `\<c>`. -/
def escChar : Char → Option Char
  | '"' => some '"'
  | '\\' => some '\\'
  | '/' => some '/'
  | 'b' => some '\x08'
  | 'f' => some '\x0c'
  | 'n' => some '\n'
  | 'r' => some '\r'
  | 't' => some '\t'
  | _ => none

/-- Parses the body of a JSON string after its opening quote, decoding the
escapes, up to and past the closing quote; raw control characters are
rejected as in the strict mode of `json.loads`.  `\uXXXX` escapes are decoded
one code unit at a time (surrogate-pair recombination is not modelled; the
manifest bodies of this repository are plain ASCII). -/
def parseStringBody : List Char → Option (List Char × List Char)
  | [] => none
  | '"' :: rest => some ([], rest)
  | '\\' :: 'u' :: a :: b :: c :: d :: rest =>
      match hexVal a, hexVal b, hexVal c, hexVal d with
      | some ha, some hb, some hc, some hd =>
          (parseStringBody rest).map
            (fun r => (Char.ofNat (4096 * ha + 256 * hb + 16 * hc + hd) :: r.1,
              r.2))
      | _, _, _, _ => none
  | '\\' :: e :: rest =>
      match escChar e with
      | some c => (parseStringBody rest).map (fun r => (c :: r.1, r.2))
      | none => none
  | c :: rest =>
      if c.toNat < 32 then none
      else (parseStringBody rest).map (fun r => (c :: r.1, r.2))

mutual

/-- Recursive-descent JSON value parsing over the grammar `s3_create_manifest`
emits (strings, booleans, arrays, objects), the core of the `json.loads`
deserialization; `fuel` bounds the recursion depth and only runs out on
inputs far longer than the supplied bound. -/
def parseJsonVal (fuel : Nat) (cs : List Char) : Option (Json × List Char) :=
  match fuel with
  | 0 => none
  | fuel + 1 =>
    match skipWs cs with
    | 't' :: 'r' :: 'u' :: 'e' :: rest => some (Json.bool true, rest)
    | 'f' :: 'a' :: 'l' :: 's' :: 'e' :: rest => some (Json.bool false, rest)
    | '"' :: rest =>
        match parseStringBody rest with
        | some (chars, r) => some (Json.str (String.mk chars), r)
        | none => none
    | '[' :: rest =>
        match skipWs rest with
        | ']' :: r2 => some (Json.arr JsonList.nil, r2)
        | r2 =>
            match parseJsonVal fuel r2 with
            | some (x, r3) =>
                match parseArrTail fuel r3 with
                | some (xs, r4) => some (Json.arr (JsonList.cons x xs), r4)
                | none => none
            | none => none
    | '\x7b' :: rest =>
        match skipWs rest with
        | '\x7d' :: r2 => some (Json.obj JsonFields.nil, r2)
        | r2 =>
            match parseMember fuel r2 with
            | some (k, v, r3) =>
                match parseObjTail fuel r3 with
                | some (fs, r4) => some (Json.obj (JsonFields.cons k v fs), r4)
                | none => none
            | none => none
    | _ => none

/-- Items of an array after the first one: `, value ... ]`. -/
def parseArrTail (fuel : Nat) (cs : List Char) :
    Option (JsonList × List Char) :=
  match fuel with
  | 0 => none
  | fuel + 1 =>
    match skipWs cs with
    | ']' :: rest => some (JsonList.nil, rest)
    | ',' :: rest =>
        match parseJsonVal fuel rest with
        | some (x, r) =>
            match parseArrTail fuel r with
            | some (xs, r2) => some (JsonList.cons x xs, r2)
            | none => none
        | none => none
    | _ => none

/-- One `"key": value` member of an object. -/
def parseMember (fuel : Nat) (cs : List Char) :
    Option (String × Json × List Char) :=
  match fuel with
  | 0 => none
  | fuel + 1 =>
    match skipWs cs with
    | '"' :: rest =>
        match parseStringBody rest with
        | some (kchars, r) =>
            match skipWs r with
            | ':' :: r2 =>
                match parseJsonVal fuel r2 with
                | some (v, r3) => some (String.mk kchars, v, r3)
                | none => none
            | _ => none
        | none => none
    | _ => none

/-- Members of an object after the first one: `, "key": value ... }`. -/
def parseObjTail (fuel : Nat) (cs : List Char) :
    Option (JsonFields × List Char) :=
  match fuel with
  | 0 => none
  | fuel + 1 =>
    match skipWs cs with
    | '\x7d' :: rest => some (JsonFields.nil, rest)
    | ',' :: rest =>
        match parseMember fuel rest with
        | some (k, v, r) =>
            match parseObjTail fuel r with
            | some (fs, r2) => some (JsonFields.cons k v fs, r2)
            | none => none
        | none => none
    | _ => none

end

/-- Deserialization of a whole JSON document, as `json.loads` performs on the
manifest body: one value, possibly surrounded by whitespace, and nothing
else. -/
def json_loads (s : String) : Option Json :=
  match parseJsonVal (2 * s.length + 2) s.data with
  | some (j, rest) => if (skipWs rest).isEmpty then some j else none
  | none => none

theorem entriesOfJsonList_entries (file_list : List String) :
    entriesOfJsonList (s3_manifest_entries file_list) =
      some (file_list.map (fun f => (f, true))) := by
  induction file_list with
  | nil => rfl
  | cons f fs ih =>
      simp [s3_manifest_entries, entriesOfJsonList, s3_manifest_entry,
        entryOfJson, ih]

theorem entriesOfJson_content (file_list : List String) :
    entriesOfJson (s3_create_manifest_content file_list) =
      some (file_list.map (fun f => (f, true))) := by
  simp only [s3_create_manifest_content, entriesOfJson]
  exact entriesOfJsonList_entries file_list

/-- `range(86400)` of `create_dim_time_csv` (populate_date_time.py line 49):
the seconds of a day, `0` to `86399`. -/
def dim_time_seconds : List Nat := List.range 86400

/-- Python `f"{n:02}"`: decimal digits, left-padded with `0` to width 2. -/
def pad2 (n : Nat) : String :=
  if n < 10 then "0" ++ toString n else toString n

/-- The `time_key` column of `create_dim_time_csv` (populate_date_time.py
line 51): the second-of-day itself. -/
def time_key_col : List Nat := dim_time_seconds

/-- The `time_key_sql` column (populate_date_time.py line 52):
`f"{s // 3600:02}:{(s % 3600) // 60:02}:{s % 60:02}"`. -/
def time_key_sql_col : List String :=
  dim_time_seconds.map (fun s =>
    pad2 (s / 3600) ++ ":" ++ pad2 (s % 3600 / 60) ++ ":" ++ pad2 (s % 60))

/-- The `hour` column (populate_date_time.py line 53): `s // 3600`. -/
def hour_col : List Nat := dim_time_seconds.map (fun s => s / 3600)

/-- The `minute` column (populate_date_time.py line 54):
`(s % 3600) // 60`. -/
def minute_col : List Nat := dim_time_seconds.map (fun s => s % 3600 / 60)

/-- The `second` column (populate_date_time.py line 55): `s % 60`. -/
def second_col : List Nat := dim_time_seconds.map (fun s => s % 60)

/-- The `am_pm` column (populate_date_time.py line 56):
`"AM" if s // 3600 < 12 else "PM"`. -/
def am_pm_col : List String :=
  dim_time_seconds.map (fun s => if s / 3600 < 12 then "AM" else "PM")

set_option maxRecDepth 200000 in
/-- C1: every entry of the manifest generated by `aws_generate_manifest` is
an absolute store URI `s3://<data_bucket>/<key>` for some listed key, that
URI was absent from the committed-files set at the moment of comparison, and
its mandatory flag is set; and on the spec's example (store keys
`log-data/a.json` and `log-data/b.json`, committed set
`s3://bucket/log-data/a.json`) the manifest contains exactly the one entry
for `b.json`. -/
theorem c1_manifest_invariant :
    (∀ (pages : List PageResult) (limit : Option Nat) (data_bucket : String)
        (rows : List String) (pat : String) (es : List (String × Bool))
        (e : String × Bool),
      entriesOfJson (aws_generate_manifest pages limit data_bucket rows pat) =
          some es →
      e ∈ es →
      (∃ k ∈ s3_list_bucket_files pages limit,
          e.1 = "s3://" ++ data_bucket ++ "/" ++ k) ∧
        e.1 ∉ redshift_get_committed_files rows pat ∧ e.2 = true) ∧
    entriesOfJson (aws_generate_manifest
        [PageResult.page ["log-data/a.json", "log-data/b.json"]] none
        "bucket" ["s3://bucket/log-data/a.json"] "log-data") =
      some [("s3://bucket/log-data/b.json", true)] := by
  constructor
  · intro pages limit data_bucket rows pat es e hes he
    simp only [aws_generate_manifest, entriesOfJson_content,
      Option.some.injEq] at hes
    subst hes
    rcases List.mem_map.mp he with ⟨f, hf, rfl⟩
    rcases mem_compare_files.mp hf with ⟨hfS, hfC⟩
    rcases List.mem_map.mp hfS with ⟨k, hk, rfl⟩
    exact ⟨⟨k, hk, rfl⟩, hfC, rfl⟩
  · rfl

set_option maxRecDepth 200000 in
/-- Witness for C1 at the spec's concrete example, discharging the two
hypotheses there. -/
theorem c1_manifest_invariant_witness :
    (∃ k ∈ s3_list_bucket_files
        [PageResult.page ["log-data/a.json", "log-data/b.json"]] none,
        ("s3://bucket/log-data/b.json" : String) =
          "s3://" ++ "bucket" ++ "/" ++ k) ∧
      ("s3://bucket/log-data/b.json" : String) ∉
        redshift_get_committed_files ["s3://bucket/log-data/a.json"]
          "log-data" ∧
      (true : Bool) = true :=
  c1_manifest_invariant.1
    [PageResult.page ["log-data/a.json", "log-data/b.json"]] none "bucket"
    ["s3://bucket/log-data/a.json"] "log-data"
    [("s3://bucket/log-data/b.json", true)]
    ("s3://bucket/log-data/b.json", true) (by decide) (by decide)

/-- C2: a store-access error after a fetched page does NOT yield the empty
list the claim (and the function's own docstring) promises:
`s3_list_bucket_files` keeps the keys accumulated before the failure. -/
theorem c2_partial_listing_kept :
    s3_list_bucket_files [PageResult.page ["log-data/a.json"],
        PageResult.err] none = ["log-data/a.json"] ∧
      ["log-data/a.json"] ≠ ([] : List String) :=
  ⟨rfl, by decide⟩

set_option maxRecDepth 200000 in
/-- C3: `redshift_get_committed_files` returns exactly the stripped versions
of the distinct stored filenames that contain the pattern as a substring
anywhere in the name (not anchored at the start); in particular the
committed filename `xlog-data-2020` matches the pattern `log-data`. -/
theorem c3_committed_files_substring :
    (∀ (rows : List String) (pat x : String),
      x ∈ redshift_get_committed_files rows pat ↔
        ∃ f, f ∈ rows ∧ pat.data <:+: f.data ∧ x = py_strip f) ∧
    redshift_get_committed_files ["xlog-data-2020"] "log-data" =
      ["xlog-data-2020"] :=
  ⟨fun _ _ _ => mem_redshift_get_committed_files, by decide⟩

set_option maxRecDepth 200000 in
/-- Witness for C3 at the spec's concrete example. -/
theorem c3_committed_files_substring_witness :
    ("xlog-data-2020" ∈
        redshift_get_committed_files ["xlog-data-2020"] "log-data" ↔
      ∃ f, f ∈ ["xlog-data-2020"] ∧
        ("log-data" : String).data <:+: f.data ∧
        "xlog-data-2020" = py_strip f) :=
  c3_committed_files_substring.1 ["xlog-data-2020"] "log-data"
    "xlog-data-2020"

/-- C4: over any paginated listing, `s3_list_bucket_files` returns exactly
the concatenation of all pages' keys in page order before any limit is
applied. -/
theorem c4_pagination_concatenation (pages : List (List String)) :
    s3_list_bucket_files (pages.map PageResult.page) none = pages.flatten :=
  by simp [s3_list_bucket_files, applyLimit, collectKeys_map_page]

/-- C5 as stated fails at the limit value `0`: the aggregated list is
returned whole instead of being truncated to its first `0` elements. -/
theorem c5_limit_zero_counterexample :
    s3_list_bucket_files [PageResult.page ["k1"]] (some 0) = ["k1"] ∧
      ["k1"] ≠ List.take 0 ["k1"] :=
  ⟨rfl, by decide⟩

/-- C5 (amended): for every nonzero limit, the returned list is the final
aggregated cross-page key list truncated to its first `limit` elements —
truncation of the aggregate, not of each page. -/
theorem c5_limit_truncates_aggregate (pages : List (List String)) (n : Nat)
    (h : n ≠ 0) :
    s3_list_bucket_files (pages.map PageResult.page) (some n) =
      pages.flatten.take n := by
  simp [s3_list_bucket_files, applyLimit, collectKeys_map_page, h]

/-- Witness for the amended C5: limit 2 over 5 available keys returns
exactly the first 2 keys in aggregated order. -/
theorem c5_limit_truncates_aggregate_witness :
    (2 : Nat) ≠ 0 ∧
      s3_list_bucket_files
          ([["k1", "k2", "k3"], ["k4", "k5"]].map PageResult.page) (some 2) =
        [["k1", "k2", "k3"], ["k4", "k5"]].flatten.take 2 :=
  ⟨by decide,
    c5_limit_truncates_aggregate [["k1", "k2", "k3"], ["k4", "k5"]] 2
      (by decide)⟩

set_option maxRecDepth 200000 in
/-- C6: the manifest document has exactly one entry per input file in input
order with `mandatory = true`; the serialized body uses 2-space indentation;
and on the spec's example the uploaded body deserializes back to exactly the
entries for the two input files. -/
theorem c6_manifest_roundtrip :
    (∀ file_list : List String,
      entriesOfJson (s3_create_manifest_content file_list) =
        some (file_list.map (fun f => (f, true)))) ∧
    s3_create_manifest_body ["s3://b/a.json", "s3://b/c.json"] =
      "\x7b\n  \"entries\": [\n    \x7b\n      \"url\": \"s3://b/a.json\",\n      \"mandatory\": true\n    \x7d,\n    \x7b\n      \"url\": \"s3://b/c.json\",\n      \"mandatory\": true\n    \x7d\n  ]\n\x7d" ∧
    json_loads (s3_create_manifest_body ["s3://b/a.json", "s3://b/c.json"]) =
      some (s3_create_manifest_content ["s3://b/a.json", "s3://b/c.json"]) :=
  ⟨entriesOfJson_content, rfl, rfl⟩

/-- C7: `compare_files` is pure and deterministic, every element of its
result is in the store set and not in the committed set, and the result has
no duplicates even when the inputs do. -/
theorem c7_compare_files_pure (C S : List String) :
    compare_files C S = compare_files C S ∧
      (∀ x ∈ compare_files C S, x ∈ S ∧ x ∉ C) ∧
      (compare_files C S).Nodup :=
  ⟨rfl, fun _ hx => mem_compare_files.mp hx, List.nodup_dedup _⟩

/-- Witness for C7 at inputs that both contain duplicates. -/
theorem c7_compare_files_pure_witness :
    compare_files ["c", "c"] ["a", "a", "b"] =
        compare_files ["c", "c"] ["a", "a", "b"] ∧
      (∀ x ∈ compare_files ["c", "c"] ["a", "a", "b"],
        x ∈ ["a", "a", "b"] ∧ x ∉ ["c", "c"]) ∧
      (compare_files ["c", "c"] ["a", "a", "b"]).Nodup :=
  c7_compare_files_pure ["c", "c"] ["a", "a", "b"]

/-- C8: the diff is antitone in the committed set: if every committed file
of `C` is also committed in `C'`, then with a fixed store set the diff
against `C'` is no longer than the diff against `C`. -/
theorem c8_diff_monotone (C C' S : List String) (h : ∀ x ∈ C, x ∈ C') :
    (compare_files C' S).length ≤ (compare_files C S).length := by
  have key : ∀ D : List String, (compare_files D S).length =
      ((S.filter (fun f => decide (f ∉ D))).toFinset).card :=
    fun D => (List.card_toFinset _).symm
  rw [key C, key C']
  apply Finset.card_le_card
  intro x hx
  simp only [List.mem_toFinset, List.mem_filter, decide_eq_true_eq]
    at hx ⊢
  exact ⟨hx.1, fun hc => hx.2 (h x hc)⟩

/-- Witness for C8 with a strictly grown committed set. -/
theorem c8_diff_monotone_witness :
    (∀ x ∈ (["a"] : List String), x ∈ ["a", "b"]) ∧
      (compare_files ["a", "b"] ["a", "b", "c"]).length ≤
        (compare_files ["a"] ["a", "b", "c"]).length :=
  ⟨by decide, c8_diff_monotone ["a"] ["a", "b"] ["a", "b", "c"] (by decide)⟩

/-- C9: `create_dim_time_csv` generates exactly 86400 rows, one per second
`s`, with `time_key = s`, `hour = s / 3600`, `minute = s % 3600 / 60`,
`second = s % 60`, `time_key_sql` the zero-padded `HH:MM:SS` rendering of
`s`, and `am_pm = "AM"` exactly when the hour is below 12. -/
theorem c9_dim_time (s : Nat) (h : s < 86400) :
    time_key_col.length = 86400 ∧ time_key_sql_col.length = 86400 ∧
      hour_col.length = 86400 ∧ minute_col.length = 86400 ∧
      second_col.length = 86400 ∧ am_pm_col.length = 86400 ∧
      time_key_col[s]? = some s ∧
      hour_col[s]? = some (s / 3600) ∧
      minute_col[s]? = some (s % 3600 / 60) ∧
      second_col[s]? = some (s % 60) ∧
      time_key_sql_col[s]? =
        some (pad2 (s / 3600) ++ ":" ++ pad2 (s % 3600 / 60) ++ ":" ++
          pad2 (s % 60)) ∧
      (am_pm_col[s]? = some "AM" ↔ s / 3600 < 12) := by
  refine ⟨by simp [time_key_col, dim_time_seconds],
    by simp [time_key_sql_col, dim_time_seconds],
    by simp [hour_col, dim_time_seconds],
    by simp [minute_col, dim_time_seconds],
    by simp [second_col, dim_time_seconds],
    by simp [am_pm_col, dim_time_seconds],
    ?_, ?_, ?_, ?_, ?_, ?_⟩
  · simp [time_key_col, dim_time_seconds, List.getElem?_range h]
  · simp [hour_col, dim_time_seconds, List.getElem?_range h]
  · simp [minute_col, dim_time_seconds, List.getElem?_range h]
  · simp [second_col, dim_time_seconds, List.getElem?_range h]
  · simp [time_key_sql_col, dim_time_seconds, List.getElem?_range h]
  · by_cases h12 : s / 3600 < 12
    · simp [am_pm_col, dim_time_seconds, List.getElem?_range h, h12]
    · simp [am_pm_col, dim_time_seconds, List.getElem?_range h, h12]

set_option maxRecDepth 200000 in
/-- Witness for C9 at second 45296 (12:34:56, an afternoon second). -/
theorem c9_dim_time_witness :
    45296 < 86400 ∧
      (time_key_col.length = 86400 ∧ time_key_sql_col.length = 86400 ∧
        hour_col.length = 86400 ∧ minute_col.length = 86400 ∧
        second_col.length = 86400 ∧ am_pm_col.length = 86400 ∧
        time_key_col[45296]? = some 45296 ∧
        hour_col[45296]? = some (45296 / 3600) ∧
        minute_col[45296]? = some (45296 % 3600 / 60) ∧
        second_col[45296]? = some (45296 % 60) ∧
        time_key_sql_col[45296]? =
          some (pad2 (45296 / 3600) ++ ":" ++ pad2 (45296 % 3600 / 60) ++
            ":" ++ pad2 (45296 % 60)) ∧
        (am_pm_col[45296]? = some "AM" ↔ 45296 / 3600 < 12)) :=
  ⟨by decide, c9_dim_time 45296 (by decide)⟩

/-- C10: a limit of 0 is falsy in Python, so `s3_list_bucket_files` returns
the full aggregated key list untruncated, exactly as with no limit. -/
theorem c10_limit_zero_like_none (pages : List PageResult) :
    s3_list_bucket_files pages (some 0) = s3_list_bucket_files pages none :=
  by simp [s3_list_bucket_files, applyLimit]

end DataWarehouse
